import Mathlib

/-!
Verification development for the AudioQuality-rs analyzer core.

The Rust sources are shallowly embedded:
* `f64` values are modelled as exact rationals (`ℚ`); decimal literals of the
  source become the corresponding exact rational.  All properties proved here
  are clamp/threshold properties that are insensitive to this idealisation.
* Rust `Option<T>` becomes `Option`, fallible operations become `Except`.
* Strings are Lean `String`s; the handful of `str` operations the code uses
  (`to_ascii_lowercase`, `trim`, `starts_with`, `contains`, path extension
  splitting) are re-implemented structurally on `List Char` so that they
  compute by kernel reduction.
-/

namespace AudioQuality

/-- `f64::EPSILON` (2⁻⁵²), used by `QualityScorer::map_to_score`
(src/analyzer/scoring.rs:819). -/
def f64Epsilon : ℚ := 1 / 2 ^ 52

/-- Rust `f64::clamp(lo, hi)`: `min (max x lo) hi` (for `lo ≤ hi`). -/
def qclamp (x lo hi : ℚ) : ℚ := min (max x lo) hi

/-- Rust `i32::clamp(lo, hi)` on mathematical integers. -/
def intClamp (x lo hi : ℤ) : ℤ := min (max x lo) hi

/-- Rust `f64::round` (round half away from zero) on exact rationals. -/
def qround (x : ℚ) : ℤ := if 0 ≤ x then ⌊x + 1 / 2⌋ else ⌈x - 1 / 2⌉

/-- ASCII lower-casing of one character, mirroring `u8::to_ascii_lowercase`. -/
def lowerAscii (c : Char) : Char :=
  if 'A' ≤ c ∧ c ≤ 'Z' then Char.ofNat (c.toNat + 32) else c

/-- `str::to_ascii_lowercase`, structurally on the character list. -/
def strLower (s : String) : String := ⟨s.data.map lowerAscii⟩

/-- `str::trim`: drop leading and trailing whitespace. -/
def trimChars (l : List Char) : List Char :=
  ((l.dropWhile Char.isWhitespace).reverse.dropWhile Char.isWhitespace).reverse

/-- Does the first list occur at the head of the second?
(Models `str::starts_with`.) -/
def leadMatch : List Char → List Char → Bool
  | [], _ => true
  | _ :: _, [] => false
  | a :: as, b :: bs => a = b && leadMatch as bs

/-- Does `needle` occur contiguously inside `hay`?  (Models `str::contains`.) -/
def containsSub (hay needle : List Char) : Bool :=
  match hay with
  | [] => leadMatch needle []
  | _ :: rest => leadMatch needle hay || containsSub rest needle

/-- Split a character list on a separator character (like `str::split`). -/
def splitOnChar (sep : Char) : List Char → List (List Char)
  | [] => [[]]
  | c :: rest =>
    if c = sep then [] :: splitOnChar sep rest
    else
      match splitOnChar sep rest with
      | [] => [[c]]
      | h :: t => (c :: h) :: t

/-- `Path::file_name` of a `/`-separated path string: the last nonempty
component (empty if there is none). -/
def pathFileName (path : List Char) : List Char :=
  ((splitOnChar '/' path).filter (· ≠ [])).getLastD []

/-- `Path::extension` of a file name: the portion after the final `.`;
`none` when there is no `.`, or when the name starts with `.` and has no
other `.`. -/
def pathExtension (name : List Char) : Option (List Char) :=
  let parts := splitOnChar '.' name
  if parts.length ≤ 1 then none
  else if (match name with | '.' :: _ => true | _ => false) && parts.length == 2 then none
  else some (parts.getLastD [])

/-- Metrics record for one file (src/analyzer/metrics.rs, `FileMetrics`,
plus the `integrated_loudness_lufs`/`true_peak_dbtp` fields used throughout
scoring.rs and ffmpeg.rs). -/
structure FileMetrics where
  file_path : String
  file_size_bytes : ℕ
  lra : Option ℚ
  peak_amplitude_db : Option ℚ
  overall_rms_db : Option ℚ
  rms_db_above_16k : Option ℚ
  rms_db_above_18k : Option ℚ
  rms_db_above_20k : Option ℚ
  integrated_loudness_lufs : Option ℚ
  true_peak_dbtp : Option ℚ
  processing_time_ms : ℕ
  sample_rate_hz : Option ℕ
  bitrate_kbps : Option ℕ
  channels : Option ℕ
  codec_name : Option String
  container_format : Option String
  duration_seconds : Option ℚ
  cache_hit : Bool
  content_sha256 : Option String
  error_codes : List String

/-- Scoring profile (src/analyzer/scoring.rs:7). -/
inductive ScoringProfile where
  | Pop
  | Broadcast
  | Archive
deriving DecidableEq

/-- Profile threshold bundle (src/analyzer/scoring.rs:42). -/
structure ProfileConfig where
  target_lufs : ℚ
  loudness_soft_range_low : ℚ
  loudness_soft_range_high : ℚ
  true_peak_warn : ℚ
  true_peak_critical : ℚ
  spectrum_fake_threshold : ℚ
  spectrum_processed_threshold : ℚ
  spectrum_good_threshold : ℚ
  lra_poor_max : ℚ
  lra_low_max : ℚ
  lra_excellent_min : ℚ
  lra_excellent_max : ℚ
  lra_acceptable_max : ℚ
  lra_too_high : ℚ
  bitrate_low_kbps : ℕ
  bitrate_high_kbps : ℕ

/-- `ProfileConfig::from_profile` (src/analyzer/scoring.rs:62). -/
def ProfileConfig.from_profile : ScoringProfile → ProfileConfig
  | .Pop =>
    { target_lufs := -9
      loudness_soft_range_low := -13
      loudness_soft_range_high := -6
      true_peak_warn := 0.1
      true_peak_critical := 1
      spectrum_fake_threshold := -85
      spectrum_processed_threshold := -80
      spectrum_good_threshold := -70
      lra_poor_max := 3
      lra_low_max := 5
      lra_excellent_min := 5.5
      lra_excellent_max := 10
      lra_acceptable_max := 14
      lra_too_high := 18
      bitrate_low_kbps := 192
      bitrate_high_kbps := 256 }
  | .Broadcast =>
    { target_lufs := -23
      loudness_soft_range_low := -25
      loudness_soft_range_high := -22
      true_peak_warn := -2
      true_peak_critical := -1
      spectrum_fake_threshold := -88
      spectrum_processed_threshold := -82
      spectrum_good_threshold := -72
      lra_poor_max := 4
      lra_low_max := 6
      lra_excellent_min := 6
      lra_excellent_max := 15
      lra_acceptable_max := 20
      lra_too_high := 24
      bitrate_low_kbps := 192
      bitrate_high_kbps := 256 }
  | .Archive =>
    { target_lufs := -18
      loudness_soft_range_low := -24
      loudness_soft_range_high := -10
      true_peak_warn := -0.5
      true_peak_critical := -0.1
      spectrum_fake_threshold := -85
      spectrum_processed_threshold := -80
      spectrum_good_threshold := -70
      lra_poor_max := 2.5
      lra_low_max := 4
      lra_excellent_min := 5
      lra_excellent_max := 14
      lra_acceptable_max := 20
      lra_too_high := 24
      bitrate_low_kbps := 160
      bitrate_high_kbps := 256 }

/-- Quality status enumeration (src/analyzer/scoring.rs:123). -/
inductive QualityStatus where
  | Good
  | Incomplete
  | Suspicious
  | Processed
  | Clipped
  | TruePeakRisk
  | LoudnessOffTarget
  | SeverelyCompressed
  | LowDynamic
  | LowBitrate
  | LowSampleRate
  | Mono
deriving DecidableEq

/-- `QualityScorer::is_lossless` (src/analyzer/scoring.rs:827): decide by
file extension, codec name and container name lookup sets. -/
def is_lossless (m : FileMetrics) : Bool :=
  let ext := ((pathExtension (pathFileName m.file_path.data)).getD []).map lowerAscii
  let codec := ((m.codec_name.getD "").data).map lowerAscii
  let container := ((m.container_format.getD "").data).map lowerAscii
  let lossless_by_ext :=
    ext = "flac".data || ext = "alac".data || ext = "wav".data ||
    ext = "aiff".data || ext = "aif".data
  let lossless_by_codec :=
    leadMatch "pcm_".data codec || codec = "flac".data || codec = "alac".data ||
    codec = "wavpack".data || codec = "ape".data
  let lossless_by_container :=
    containsSub container "flac".data || containsSub container "wav".data ||
    containsSub container "aiff".data
  lossless_by_ext || lossless_by_codec || lossless_by_container

/-- `QualityScorer::is_lossy` (src/analyzer/scoring.rs:855): never true for
lossless files; otherwise extension/codec lookup sets. -/
def is_lossy (m : FileMetrics) : Bool :=
  if is_lossless m then false
  else
    let ext := ((pathExtension (pathFileName m.file_path.data)).getD []).map lowerAscii
    let codec := ((m.codec_name.getD "").data).map lowerAscii
    let lossy_by_ext :=
      ext = "mp3".data || ext = "aac".data || ext = "m4a".data ||
      ext = "ogg".data || ext = "opus".data || ext = "wma".data
    let lossy_by_codec :=
      codec = "mp3".data || codec = "aac".data || codec = "vorbis".data ||
      codec = "opus".data || codec = "wmav2".data || codec = "mp2".data ||
      codec = "ac3".data
    lossy_by_ext || lossy_by_codec

/-- `QualityScorer::count_missing_critical_fields` (src/analyzer/scoring.rs:303). -/
def count_missing_critical_fields (m : FileMetrics) : ℕ :=
  (if m.rms_db_above_18k = none then 1 else 0) +
  (if m.lra = none then 1 else 0) +
  (if m.integrated_loudness_lufs = none then 1 else 0) +
  (if m.true_peak_dbtp = none ∧ m.peak_amplitude_db = none then 1 else 0)

/-- `QualityScorer::map_to_score` (src/analyzer/scoring.rs:811): clamp the
value into the input range, then linearly interpolate onto the output range;
a (near-)degenerate input range short-circuits to `out_min`. -/
def map_to_score (value in_min in_max out_min out_max : ℚ) : ℚ :=
  if |in_max - in_min| < f64Epsilon then out_min
  else
    let clamped_value := qclamp value in_min in_max
    out_min + (clamped_value - in_min) * (out_max - out_min) / (in_max - in_min)

/-- Status decision list, checks 3 onward are split into one helper per
sequential block of `QualityScorer::determine_status`
(src/analyzer/scoring.rs:243); first match wins.  This helper covers the
final LRA checks (scoring.rs:291). -/
def determine_status_lra (cfg : ProfileConfig) (m : FileMetrics) : QualityStatus :=
  match m.lra with
  | some lra =>
    if lra < cfg.lra_poor_max then .SeverelyCompressed
    else if lra < cfg.lra_low_max then .LowDynamic
    else .Good
  | none => .Good

/-- Channel check of `determine_status` (scoring.rs:287). -/
def determine_status_channels (cfg : ProfileConfig) (m : FileMetrics) : QualityStatus :=
  match m.channels with
  | some ch => if ch < 2 then .Mono else determine_status_lra cfg m
  | none => determine_status_lra cfg m

/-- Sample-rate check of `determine_status` (scoring.rs:283). -/
def determine_status_sample_rate (cfg : ProfileConfig) (m : FileMetrics) : QualityStatus :=
  match m.sample_rate_hz with
  | some sr => if sr < 44100 then .LowSampleRate else determine_status_channels cfg m
  | none => determine_status_channels cfg m

/-- Low-bitrate check of `determine_status` (scoring.rs:277). -/
def determine_status_bitrate (cfg : ProfileConfig) (m : FileMetrics) : QualityStatus :=
  match m.bitrate_kbps with
  | some bitrate =>
    if is_lossy m ∧ bitrate < cfg.bitrate_low_kbps then .LowBitrate
    else determine_status_sample_rate cfg m
  | none => determine_status_sample_rate cfg m

/-- Integrated-loudness check of `determine_status` (scoring.rs:269). -/
def determine_status_loudness (cfg : ProfileConfig) (m : FileMetrics) : QualityStatus :=
  match m.integrated_loudness_lufs with
  | some i_lufs =>
    if i_lufs < cfg.loudness_soft_range_low ∨ i_lufs > cfg.loudness_soft_range_high then
      .LoudnessOffTarget
    else determine_status_bitrate cfg m
  | none => determine_status_bitrate cfg m

/-- True-peak / sample-peak checks of `determine_status` (scoring.rs:258). -/
def determine_status_peak (cfg : ProfileConfig) (m : FileMetrics) : QualityStatus :=
  match m.true_peak_dbtp with
  | some tp =>
    if tp ≥ cfg.true_peak_critical then .Clipped
    else if tp ≥ cfg.true_peak_warn then .TruePeakRisk
    else determine_status_loudness cfg m
  | none =>
    match m.peak_amplitude_db with
    | some peak => if peak ≥ -0.1 then .Clipped else determine_status_loudness cfg m
    | none => determine_status_loudness cfg m

/-- Spectrum checks of `determine_status` (scoring.rs:249). -/
def determine_status_spectrum (cfg : ProfileConfig) (m : FileMetrics) : QualityStatus :=
  match m.rms_db_above_18k with
  | some rms_18k =>
    if is_lossless m ∧ rms_18k < cfg.spectrum_fake_threshold then .Suspicious
    else if rms_18k < cfg.spectrum_processed_threshold then .Processed
    else determine_status_peak cfg m
  | none => determine_status_peak cfg m

/-- `QualityScorer::determine_status` (src/analyzer/scoring.rs:243). -/
def determine_status (p : ScoringProfile) (m : FileMetrics) : QualityStatus :=
  let cfg := ProfileConfig.from_profile p
  if 2 ≤ count_missing_critical_fields m then .Incomplete
  else determine_status_spectrum cfg m

/-- `QualityScorer::calculate_compliance_score` (src/analyzer/scoring.rs:652). -/
def calculate_compliance_score (cfg : ProfileConfig) (m : FileMetrics) : ℚ :=
  let loudness_score :=
    match m.integrated_loudness_lufs with
    | some i_lufs =>
      let delta := |i_lufs - cfg.target_lufs|
      if delta ≤ 1 then 20
      else if delta ≤ 3 then map_to_score delta 1 3 20 12
      else if delta ≤ 6 then map_to_score delta 3 6 12 2
      else 0
    | none => 0
  let peak_score :=
    match m.true_peak_dbtp with
    | some tp =>
      if tp ≤ cfg.true_peak_warn then 15
      else if tp ≤ cfg.true_peak_critical then
        map_to_score tp cfg.true_peak_warn cfg.true_peak_critical 15 4
      else 0
    | none =>
      match m.peak_amplitude_db with
      | some peak =>
        if peak ≤ -1 then 8
        else if peak ≤ 0 then map_to_score peak (-1) 0 8 2
        else 0
      | none => 0
  loudness_score + peak_score

/-- `QualityScorer::calculate_dynamics_score` (src/analyzer/scoring.rs:697). -/
def calculate_dynamics_score (cfg : ProfileConfig) (m : FileMetrics) : ℚ :=
  match m.lra with
  | none => 0
  | some lra =>
    if lra ≥ cfg.lra_excellent_min ∧ lra ≤ cfg.lra_excellent_max then 20
    else if lra ≥ cfg.lra_low_max ∧ lra < cfg.lra_excellent_min then
      map_to_score lra cfg.lra_low_max cfg.lra_excellent_min 12 19
    else if lra > cfg.lra_excellent_max ∧ lra ≤ cfg.lra_acceptable_max then
      map_to_score lra cfg.lra_excellent_max cfg.lra_acceptable_max 19 13
    else if lra ≥ cfg.lra_poor_max ∧ lra < cfg.lra_low_max then
      map_to_score lra cfg.lra_poor_max cfg.lra_low_max 5 12
    else if lra > cfg.lra_too_high then 10
    else map_to_score lra 0 cfg.lra_poor_max 0 5

/-- `QualityScorer::calculate_spectrum_score` (src/analyzer/scoring.rs:736). -/
def calculate_spectrum_score (cfg : ProfileConfig) (m : FileMetrics) : ℚ :=
  let score_16k :=
    match m.rms_db_above_16k with
    | some v => map_to_score v (-95) (-55) 0 15
    | none => 0
  let score_18k :=
    match m.rms_db_above_18k with
    | some v =>
      if v ≥ cfg.spectrum_good_threshold then 10
      else if v ≥ cfg.spectrum_processed_threshold then
        map_to_score v cfg.spectrum_processed_threshold cfg.spectrum_good_threshold 6 10
      else if v ≥ cfg.spectrum_fake_threshold then
        map_to_score v cfg.spectrum_fake_threshold cfg.spectrum_processed_threshold 2 6
      else 0
    | none => 0
  score_16k + score_18k

/-- `QualityScorer::calculate_authenticity_score` (src/analyzer/scoring.rs:772). -/
def calculate_authenticity_score (cfg : ProfileConfig) (m : FileMetrics) : ℚ :=
  let base : ℚ :=
    match m.rms_db_above_18k with
    | some v =>
      if is_lossless m ∧ v < cfg.spectrum_fake_threshold then 0
      else if v < cfg.spectrum_processed_threshold then 4
      else 10
    | none => 10
  let transcode_penalty : ℚ :=
    match m.bitrate_kbps, m.rms_db_above_18k with
    | some b, some v =>
      if is_lossy m ∧ cfg.bitrate_high_kbps ≤ b ∧ v < cfg.spectrum_processed_threshold then 2
      else 0
    | _, _ => 0
  max (base - transcode_penalty) 0

/-- `QualityScorer::calculate_integrity_score` (src/analyzer/scoring.rs:793). -/
def calculate_integrity_score (m : FileMetrics) : ℚ :=
  let missing : ℚ := count_missing_critical_fields m
  let score := max (10 - missing * 3) 0
  if m.error_codes ≠ [] then
    max (score - min 2 (m.error_codes.length : ℚ)) 0
  else score

/-- Elite loudness band per profile (src/analyzer/scoring.rs:596). -/
def elite_loudness_range : ScoringProfile → ℚ × ℚ
  | .Pop => (-10.5, -7.5)
  | .Broadcast => (-24, -22)
  | .Archive => (-20, -12)

/-- Elite true-peak ceiling per profile (src/analyzer/scoring.rs:604). -/
def elite_true_peak_max : ScoringProfile → ℚ
  | .Pop => -0.2
  | .Broadcast => -1
  | .Archive => -0.3

/-- Elite LRA band per profile (src/analyzer/scoring.rs:612). -/
def elite_lra_range : ScoringProfile → ℚ × ℚ
  | .Pop => (4.5, 11)
  | .Broadcast => (6, 15)
  | .Archive => (4, 16)

/-- `QualityScorer::soft_band_score` (src/analyzer/scoring.rs:620). -/
def soft_band_score (value preferred_min preferred_max soft_min soft_max : ℚ) : ℚ :=
  if value ≥ preferred_min ∧ value ≤ preferred_max then 1
  else if value < preferred_min then
    if preferred_min ≤ soft_min then 0
    else if value ≥ soft_min then map_to_score value soft_min preferred_min 0 1
    else 0
  else if preferred_max ≥ soft_max then 0
  else if value ≤ soft_max then map_to_score value preferred_max soft_max 1 0
  else 0

/-- `QualityScorer::qualifies_for_elite_90` (src/analyzer/scoring.rs:437). -/
def qualifies_for_elite_90 (p : ScoringProfile) (m : FileMetrics)
    (st : QualityStatus) : Bool :=
  if st ≠ QualityStatus.Good then false
  else
    match m.integrated_loudness_lufs, m.true_peak_dbtp, m.lra, m.rms_db_above_18k with
    | some i_lufs, some tp, some lra, some rms18 =>
      let cfg := ProfileConfig.from_profile p
      let loudness_ok :=
        decide ((elite_loudness_range p).1 ≤ i_lufs ∧ i_lufs ≤ (elite_loudness_range p).2)
      let true_peak_ok := decide (tp ≤ elite_true_peak_max p)
      let lra_ok := decide ((elite_lra_range p).1 ≤ lra ∧ lra ≤ (elite_lra_range p).2)
      let spectrum_ok := decide (rms18 ≥ cfg.spectrum_processed_threshold)
      let bitrate_ok :=
        if is_lossy m then
          match m.bitrate_kbps with
          | some b => decide (b ≥ cfg.bitrate_high_kbps)
          | none => false
        else true
      loudness_ok && true_peak_ok && lra_ok && spectrum_ok && bitrate_ok
    | _, _, _, _ => false

/-- `QualityScorer::estimate_elite_readiness` (src/analyzer/scoring.rs:482). -/
def estimate_elite_readiness (p : ScoringProfile) (m : FileMetrics) : ℚ :=
  let cfg := ProfileConfig.from_profile p
  let loudness_score :=
    match m.integrated_loudness_lufs with
    | some value =>
      soft_band_score value (elite_loudness_range p).1 (elite_loudness_range p).2
        cfg.loudness_soft_range_low cfg.loudness_soft_range_high
    | none => 0
  let tp_score :=
    match m.true_peak_dbtp with
    | some tp =>
      let elite_tp_max := elite_true_peak_max p
      let soft_tp_max := max cfg.true_peak_critical (elite_tp_max + 0.6)
      if tp ≤ elite_tp_max then 1
      else if tp ≤ soft_tp_max then map_to_score tp elite_tp_max soft_tp_max 1 0
      else 0
    | none =>
      match m.peak_amplitude_db with
      | some peak =>
        if peak ≤ -1 then 0.9
        else if peak ≤ 0 then map_to_score peak (-1) 0 0.9 0
        else 0
      | none => 0
  let lra_score :=
    match m.lra with
    | some value =>
      soft_band_score value (elite_lra_range p).1 (elite_lra_range p).2
        cfg.lra_low_max cfg.lra_acceptable_max
    | none => 0
  let spectrum_score :=
    match m.rms_db_above_18k with
    | some value =>
      if value ≥ cfg.spectrum_processed_threshold then
        map_to_score value cfg.spectrum_processed_threshold cfg.spectrum_good_threshold 0.7 1
      else if value ≥ cfg.spectrum_fake_threshold then
        map_to_score value cfg.spectrum_fake_threshold cfg.spectrum_processed_threshold 0 0.7
      else 0
    | none => 0
  let bitrate_score :=
    if is_lossy m then
      match m.bitrate_kbps with
      | some bitrate =>
        if (bitrate : ℚ) ≥ (cfg.bitrate_high_kbps : ℚ) then 1
        else if (bitrate : ℚ) ≥ (cfg.bitrate_low_kbps : ℚ) then
          map_to_score (bitrate : ℚ) (cfg.bitrate_low_kbps : ℚ) (cfg.bitrate_high_kbps : ℚ)
            0.35 1
        else 0
      | none => 0
    else 1
  let readiness :=
    loudness_score * 0.26 + tp_score * 0.20 + lra_score * 0.22 +
    spectrum_score * 0.20 + bitrate_score * 0.12
  qclamp readiness 0 1

/-- `QualityScorer::compress_non_elite_high_score` (src/analyzer/scoring.rs:473). -/
def compress_non_elite_high_score (p : ScoringProfile) (raw_score : ℚ)
    (m : FileMetrics) : ℚ :=
  let high_band_progress := qclamp ((raw_score - 90) / 9) 0 1
  let elite_readiness := estimate_elite_readiness p m
  qclamp (85 + high_band_progress * 2 + elite_readiness * 2) 85 89

/-- Pre-cap total of `QualityScorer::calculate_quality_score`
(src/analyzer/scoring.rs:388-418): the five weighted sub-scores summed,
minus the punitive flat deductions. -/
def raw_total (p : ScoringProfile) (m : FileMetrics) : ℚ :=
  let cfg := ProfileConfig.from_profile p
  let base := calculate_compliance_score cfg m + calculate_dynamics_score cfg m +
    calculate_spectrum_score cfg m + calculate_authenticity_score cfg m +
    calculate_integrity_score m
  let low_bitrate_deduction : ℚ :=
    match m.bitrate_kbps with
    | some bitrate => if is_lossy m ∧ bitrate < cfg.bitrate_low_kbps then 12 else 0
    | none => 0
  let transcode_deduction : ℚ :=
    match m.bitrate_kbps, m.rms_db_above_18k with
    | some bitrate, some rms_18k =>
      if is_lossy m ∧ bitrate > cfg.bitrate_high_kbps ∧
          rms_18k < cfg.spectrum_processed_threshold then 8
      else 0
    | _, _ => 0
  let sample_rate_deduction : ℚ :=
    match m.sample_rate_hz with
    | some sr => if sr < 44100 then 10 else 0
    | none => 0
  let mono_deduction : ℚ :=
    match m.channels with
    | some ch => if ch < 2 then 3 else 0
    | none => 0
  base - low_bitrate_deduction - transcode_deduction - sample_rate_deduction -
    mono_deduction

/-- Status caps of `calculate_quality_score` (src/analyzer/scoring.rs:420). -/
def apply_status_cap (st : QualityStatus) (t : ℚ) : ℚ :=
  match st with
  | .Suspicious => min t 25
  | .Incomplete => min t 45
  | .Clipped => min t 85
  | .TruePeakRisk => min t 92
  | _ => t

/-- Elite gate of `calculate_quality_score` (src/analyzer/scoring.rs:429):
totals above 90 that do not qualify for elite are softly compressed. -/
def total_after_elite_gate (p : ScoringProfile) (m : FileMetrics)
    (st : QualityStatus) : ℚ :=
  let t := apply_status_cap st (raw_total p m)
  if 90 < t ∧ qualifies_for_elite_90 p m st = false then
    compress_non_elite_high_score p t m
  else t

/-- `QualityScorer::calculate_quality_score` (src/analyzer/scoring.rs:387):
the gated total is clamped to [0, 99], rounded, and clamped again as an
integer. -/
def calculate_quality_score (p : ScoringProfile) (m : FileMetrics)
    (st : QualityStatus) : ℤ :=
  intClamp (qround (qclamp (total_after_elite_gate p m st) 0 99)) 0 99

lemma f64Epsilon_pos : 0 < f64Epsilon := by norm_num [f64Epsilon]

lemma qclamp_le_right (x lo hi : ℚ) : qclamp x lo hi ≤ hi := min_le_right _ _

lemma le_qclamp (x : ℚ) {lo hi : ℚ} (h : lo ≤ hi) : lo ≤ qclamp x lo hi :=
  le_min (le_max_right _ _) h

lemma qclamp_le_of {x b : ℚ} {lo hi : ℚ} (hx : x ≤ b) (hlo : lo ≤ b) :
    qclamp x lo hi ≤ b :=
  le_trans (min_le_left _ _) (max_le hx hlo)

lemma qclamp_eq_self {x lo hi : ℚ} (h1 : lo ≤ x) (h2 : x ≤ hi) :
    qclamp x lo hi = x := by
  unfold qclamp
  rw [max_eq_left h1, min_eq_left h2]

lemma qround_le {q : ℚ} {b : ℤ} (h : q ≤ (b : ℚ)) : qround q ≤ b := by
  unfold qround
  split_ifs with h0
  · have hf : ⌊q + 1 / 2⌋ < b + 1 := Int.floor_lt.mpr (by push_cast; linarith)
    omega
  · exact Int.ceil_le.mpr (by linarith)

lemma qround_ge {q : ℚ} {b : ℤ} (h : (b : ℚ) ≤ q) : b ≤ qround q := by
  unfold qround
  split_ifs with h0
  · exact Int.le_floor.mpr (by linarith)
  · have hc : b - 1 < ⌈q - 1 / 2⌉ := Int.lt_ceil.mpr (by push_cast; linarith)
    omega

lemma calculate_quality_score_le {p : ScoringProfile} {m : FileMetrics}
    {st : QualityStatus} {b : ℤ} (hb : 0 ≤ b)
    (h : total_after_elite_gate p m st ≤ (b : ℚ)) :
    calculate_quality_score p m st ≤ b := by
  unfold calculate_quality_score intClamp
  have h1 : qclamp (total_after_elite_gate p m st) 0 99 ≤ (b : ℚ) :=
    qclamp_le_of h (by exact_mod_cast hb)
  exact le_trans (min_le_left _ _) (max_le (qround_le h1) hb)

lemma total_after_elite_gate_le {p : ScoringProfile} {m : FileMetrics}
    {st : QualityStatus} {b : ℚ}
    (hcap : apply_status_cap st (raw_total p m) ≤ b) (hb : 89 ≤ b ∨ b ≤ 90) :
    total_after_elite_gate p m st ≤ b := by
  unfold total_after_elite_gate
  dsimp only
  split_ifs with hc
  · rcases hb with hb | hb
    · exact le_trans (qclamp_le_right _ _ _) hb
    · have := lt_of_lt_of_le hc.1 (le_trans hcap hb)
      linarith
  · exact hcap

/-- C1: for every metrics record, scoring profile and status, the value of
`calculate_quality_score` is an integer in the range [0, 99]; it is never
100 and never negative.  (The `score` field of every `QualityAnalysis` is
exactly this value, computed by `analyze_file`.) -/
theorem quality_score_in_range (p : ScoringProfile) (m : FileMetrics)
    (st : QualityStatus) :
    0 ≤ calculate_quality_score p m st ∧ calculate_quality_score p m st ≤ 99 := by
  unfold calculate_quality_score intClamp
  constructor
  · exact le_min (le_max_right _ _) (by norm_num)
  · exact min_le_right _ _

/-- C4: whatever the magnitudes of the five weighted sub-scores, the final
score is capped by status: Suspicious scores at most 25, Incomplete at most
45, Clipped at most 85, and TruePeakRisk at most 92. -/
theorem status_caps_bound_score (p : ScoringProfile) (m : FileMetrics) :
    calculate_quality_score p m .Suspicious ≤ 25 ∧
    calculate_quality_score p m .Incomplete ≤ 45 ∧
    calculate_quality_score p m .Clipped ≤ 85 ∧
    calculate_quality_score p m .TruePeakRisk ≤ 92 := by
  refine ⟨?_, ?_, ?_, ?_⟩
  · refine calculate_quality_score_le (by norm_num) (total_after_elite_gate_le ?_ (Or.inr (by norm_num)))
    show min (raw_total p m) 25 ≤ (25 : ℚ)
    exact min_le_right _ _
  · refine calculate_quality_score_le (by norm_num) (total_after_elite_gate_le ?_ (Or.inr (by norm_num)))
    show min (raw_total p m) 45 ≤ (45 : ℚ)
    exact min_le_right _ _
  · refine calculate_quality_score_le (by norm_num) (total_after_elite_gate_le ?_ (Or.inr (by norm_num)))
    show min (raw_total p m) 85 ≤ (85 : ℚ)
    exact min_le_right _ _
  · refine calculate_quality_score_le (by norm_num) (total_after_elite_gate_le ?_ (Or.inl (by norm_num)))
    show min (raw_total p m) 92 ≤ (92 : ℚ)
    exact min_le_right _ _

/-- C3: a Good-status record that fails the elite gate and whose raw
pre-clamp total exceeds 90 receives a final score in [85, 89] — never 90 or
above. -/
theorem non_elite_high_score_compressed (p : ScoringProfile) (m : FileMetrics)
    (_hst : determine_status p m = QualityStatus.Good)
    (hq : qualifies_for_elite_90 p m QualityStatus.Good = false)
    (hr : 90 < raw_total p m) :
    85 ≤ calculate_quality_score p m QualityStatus.Good ∧
    calculate_quality_score p m QualityStatus.Good ≤ 89 := by
  have hcap : apply_status_cap QualityStatus.Good (raw_total p m) = raw_total p m := rfl
  have hgate : total_after_elite_gate p m QualityStatus.Good =
      compress_non_elite_high_score p (raw_total p m) m := by
    unfold total_after_elite_gate
    dsimp only
    rw [hcap, if_pos ⟨hr, hq⟩]
  have h85 : (85 : ℚ) ≤ compress_non_elite_high_score p (raw_total p m) m :=
    le_qclamp _ (by norm_num)
  have h89 : compress_non_elite_high_score p (raw_total p m) m ≤ 89 :=
    qclamp_le_right _ _ _
  unfold calculate_quality_score intClamp
  rw [hgate, qclamp_eq_self (by linarith) (by linarith)]
  have hrge : (85 : ℤ) ≤ qround (compress_non_elite_high_score p (raw_total p m) m) :=
    qround_ge (by exact_mod_cast h85)
  have hrle : qround (compress_non_elite_high_score p (raw_total p m) m) ≤ (89 : ℤ) :=
    qround_le (by exact_mod_cast h89)
  constructor
  · exact le_min (le_trans hrge (le_max_left _ _)) (by norm_num)
  · rw [max_eq_left (le_trans (by norm_num) hrge)]
    exact le_trans (min_le_left _ _) hrle

/-- Test vector for the elite-gate compression: a Good lossless track whose
raw total is 96.125 but whose true peak (−0.15 dBTP) misses the Pop elite
true-peak ceiling (−0.2 dBTP). -/
def eliteGateSample : FileMetrics :=
  { file_path := "test.flac"
    file_size_bytes := 1000000
    lra := some 8.5
    peak_amplitude_db := some (-1.5)
    overall_rms_db := some (-18)
    rms_db_above_16k := some (-60)
    rms_db_above_18k := some (-75)
    rms_db_above_20k := some (-85)
    integrated_loudness_lufs := some (-9.5)
    true_peak_dbtp := some (-0.15)
    processing_time_ms := 1000
    sample_rate_hz := some 44100
    bitrate_kbps := some 900
    channels := some 2
    codec_name := some "flac"
    container_format := some "flac"
    duration_seconds := some 60
    cache_hit := false
    content_sha256 := some "abc"
    error_codes := [] }

/-- C3 witness: the concrete sample above satisfies all three hypotheses of
the compression theorem, so its score lands in [85, 89]. -/
theorem non_elite_high_score_compressed_witness :
    85 ≤ calculate_quality_score .Pop eliteGateSample QualityStatus.Good ∧
    calculate_quality_score .Pop eliteGateSample QualityStatus.Good ≤ 89 := by
  have hl : is_lossless eliteGateSample = true := by decide
  have hy : is_lossy eliteGateSample = false := by decide
  have hst : determine_status .Pop eliteGateSample = QualityStatus.Good := by
    norm_num [determine_status, determine_status_spectrum, determine_status_peak,
      determine_status_loudness, determine_status_bitrate,
      determine_status_sample_rate, determine_status_channels,
      determine_status_lra, count_missing_critical_fields,
      ProfileConfig.from_profile, eliteGateSample, hl, hy, Option.some_ne_none]
  have hq : qualifies_for_elite_90 .Pop eliteGateSample QualityStatus.Good = false := by
    have htp : decide ((-0.15 : ℚ) ≤ elite_true_peak_max .Pop) = false :=
      decide_eq_false (by norm_num [elite_true_peak_max])
    simp only [qualifies_for_elite_90, eliteGateSample, htp]
    simp
  have hr : 90 < raw_total .Pop eliteGateSample := by
    norm_num [raw_total, calculate_compliance_score, calculate_dynamics_score,
      calculate_spectrum_score, calculate_authenticity_score,
      calculate_integrity_score, map_to_score, count_missing_critical_fields,
      qclamp, f64Epsilon, ProfileConfig.from_profile, eliteGateSample, hl, hy,
      Option.some_ne_none, abs_eq_max_neg, min_def, max_def]
  exact non_elite_high_score_compressed .Pop eliteGateSample hst hq hr

/-- C7 (amended): with an input range at least `f64::EPSILON` wide, values
at or below `in_min` map to `out_min`, values at or above `in_max` map to
`out_max` (so both endpoints map to the corresponding output bounds and
outside values clamp before interpolation); whenever the input range is
narrower than `f64::EPSILON` — including but not only the exactly
degenerate case `in_min = in_max` — the result is `out_min` regardless of
the value. -/
theorem map_to_score_spec (in_min in_max out_min out_max : ℚ)
    (h : f64Epsilon ≤ in_max - in_min) :
    (∀ v, v ≤ in_min → map_to_score v in_min in_max out_min out_max = out_min) ∧
    (∀ v, in_max ≤ v → map_to_score v in_min in_max out_min out_max = out_max) ∧
    (∀ a b c d v, |b - a| < f64Epsilon → map_to_score v a b c d = c) ∧
    (∀ x a b v, map_to_score v x x a b = a) := by
  have hd : 0 < in_max - in_min := lt_of_lt_of_le f64Epsilon_pos h
  have hne : ¬ |in_max - in_min| < f64Epsilon := not_lt.mpr (by rwa [abs_of_pos hd])
  have hmm : in_min ≤ in_max := by linarith
  refine ⟨?_, ?_, ?_, ?_⟩
  · intro v hv
    unfold map_to_score
    rw [if_neg hne]
    have hcl : qclamp v in_min in_max = in_min := by
      unfold qclamp
      rw [max_eq_right hv, min_eq_left hmm]
    dsimp only
    rw [hcl]
    simp
  · intro v hv
    unfold map_to_score
    rw [if_neg hne]
    have hcl : qclamp v in_min in_max = in_max := by
      unfold qclamp
      rw [max_eq_left (le_trans hmm hv), min_eq_right hv]
    dsimp only
    rw [hcl]
    field_simp
  · intro a b c d v hnarrow
    unfold map_to_score
    rw [if_pos hnarrow]
  · intro x a b v
    unfold map_to_score
    rw [if_pos]
    simp [f64Epsilon_pos]

/-- C7 counterexample to the claim as stated: the input range
`[0, 2⁻⁵³]` is not degenerate (`in_min ≠ in_max`), yet mapping `in_max`
returns `out_min = 0`, not `out_max = 1`, because the range is narrower
than `f64::EPSILON`. -/
theorem map_to_score_near_degenerate_cx :
    (0 : ℚ) ≠ 1 / 2 ^ 53 ∧
    map_to_score (1 / 2 ^ 53) 0 (1 / 2 ^ 53) 0 1 ≠ 1 := by
  constructor
  · norm_num
  · have hcond : |(1 / 2 ^ 53 : ℚ) - 0| < f64Epsilon := by
      rw [sub_zero, abs_of_pos (by norm_num)]
      norm_num [f64Epsilon]
    unfold map_to_score
    rw [if_pos hcond]
    norm_num

/-- C7 witness: the amended mapping law at a concrete wide range, a
concrete near-degenerate range that is not exactly degenerate, and a
concrete exactly degenerate range. -/
theorem map_to_score_spec_witness :
    map_to_score (-5) 0 10 3 7 = 3 ∧ map_to_score 12 0 10 3 7 = 7 ∧
    map_to_score 7 0 (1 / 2 ^ 53) 3 9 = 3 ∧ map_to_score 4 2 2 5 6 = 5 := by
  have h := map_to_score_spec 0 10 3 7 (by norm_num [f64Epsilon])
  refine ⟨h.1 (-5) (by norm_num), h.2.1 12 (by norm_num), ?_, h.2.2.2 2 5 6 4⟩
  refine h.2.2.1 0 (1 / 2 ^ 53) 3 9 7 ?_
  rw [sub_zero, abs_of_pos (by norm_num)]
  norm_num [f64Epsilon]

/-- Current cache format version (src/analyzer/cache.rs:12). -/
def CACHE_VERSION : ℕ := 1

/-- Content fingerprint of a file (src/analyzer/cache.rs:15). -/
structure FileFingerprint where
  mtime_unix_secs : ℕ
  file_size_bytes : ℕ
  content_sha256 : String

/-- One stored cache entry (src/analyzer/cache.rs:22). -/
structure CacheEntry where
  fingerprint : FileFingerprint
  metrics : FileMetrics

/-- The analysis cache document (src/analyzer/cache.rs:28).  The `HashMap`
is modelled as an association list with `String` keys. -/
structure AnalysisCache where
  version : ℕ
  entries : List (String × CacheEntry)

/-- `AnalysisCache::default` (src/analyzer/cache.rs:33): current version,
no entries. -/
def AnalysisCache.default : AnalysisCache :=
  { version := CACHE_VERSION, entries := [] }

/-- `normalize_cache_key` (src/analyzer/cache.rs:132) canonicalizes through
the filesystem (falling back to the path itself); the cache logic depends
only on `lookup` and `upsert` agreeing on the key, so it is modelled as the
identity on the path string. -/
def normalize_cache_key (path : String) : String := path

/-- `AnalysisCache::lookup` (src/analyzer/cache.rs:65): a stored record is
returned only if all three fingerprint components match exactly; the
returned record has its cache-hit flag set. -/
def AnalysisCache.lookup (c : AnalysisCache) (file_path : String)
    (fp : FileFingerprint) : Option FileMetrics :=
  match c.entries.lookup (normalize_cache_key file_path) with
  | none => none
  | some entry =>
    if entry.fingerprint.mtime_unix_secs = fp.mtime_unix_secs ∧
        entry.fingerprint.file_size_bytes = fp.file_size_bytes ∧
        entry.fingerprint.content_sha256 = fp.content_sha256 then
      some { entry.metrics with cache_hit := true }
    else none

/-- Cache-hit path of `process_one_file` (src/main.rs:385-393): on a lookup
hit the processing duration is reset to zero. -/
def process_one_file_cached (c : AnalysisCache) (path : String)
    (fp : FileFingerprint) : Option FileMetrics :=
  (AnalysisCache.lookup c path fp).map fun m => { m with processing_time_ms := 0 }

/-- C2: cache lookup hits exactly when an entry exists for the path and all
three fingerprint components are pairwise equal (so any single differing
component yields a miss), and the record returned by the cache-hit path of
`process_one_file` has its cache-hit flag set and its processing duration
reset to zero. -/
theorem cache_lookup_spec (c : AnalysisCache) (path : String)
    (fp : FileFingerprint) :
    (∀ m, AnalysisCache.lookup c path fp = some m ↔
      ∃ e, (c.entries.lookup (normalize_cache_key path)) = some e ∧
        e.fingerprint.mtime_unix_secs = fp.mtime_unix_secs ∧
        e.fingerprint.file_size_bytes = fp.file_size_bytes ∧
        e.fingerprint.content_sha256 = fp.content_sha256 ∧
        m = { e.metrics with cache_hit := true }) ∧
    (∀ m, process_one_file_cached c path fp = some m →
      m.cache_hit = true ∧ m.processing_time_ms = 0) := by
  have part1 : ∀ m, AnalysisCache.lookup c path fp = some m ↔
      ∃ e, (c.entries.lookup (normalize_cache_key path)) = some e ∧
        e.fingerprint.mtime_unix_secs = fp.mtime_unix_secs ∧
        e.fingerprint.file_size_bytes = fp.file_size_bytes ∧
        e.fingerprint.content_sha256 = fp.content_sha256 ∧
        m = { e.metrics with cache_hit := true } := by
    intro m
    cases h : c.entries.lookup (normalize_cache_key path) with
    | none => simp [AnalysisCache.lookup, h]
    | some e =>
      simp only [AnalysisCache.lookup, h]
      split_ifs with hc
      · simp only [Option.some.injEq]
        constructor
        · intro hm
          exact ⟨e, rfl, hc.1, hc.2.1, hc.2.2, hm.symm⟩
        · rintro ⟨e2, he2, _, _, _, hm⟩
          subst he2
          exact hm.symm
      · constructor
        · intro hm
          exact hm.elim
        · rintro ⟨e2, he2, h1, h2, h3, _⟩
          injection he2 with he2e
          subst he2e
          exact absurd ⟨h1, h2, h3⟩ hc
  refine ⟨part1, ?_⟩
  intro m hm
  unfold process_one_file_cached at hm
  cases hl : AnalysisCache.lookup c path fp with
  | none => rw [hl] at hm; simp at hm
  | some r =>
    rw [hl] at hm
    simp only [Option.map_some'] at hm
    obtain ⟨e, _, _, _, _, hr⟩ := (part1 r).mp hl
    injection hm with hm2
    subst hm2
    refine ⟨?_, rfl⟩
    show r.cache_hit = true
    rw [hr]

/-- Test vector metrics for the cache claims: all measurements absent,
nonzero processing duration, cache-hit flag unset. -/
def cacheSampleMetrics : FileMetrics :=
  { file_path := "/tmp/a.flac"
    file_size_bytes := 1
    lra := none
    peak_amplitude_db := none
    overall_rms_db := none
    rms_db_above_16k := none
    rms_db_above_18k := none
    rms_db_above_20k := none
    integrated_loudness_lufs := none
    true_peak_dbtp := none
    processing_time_ms := 1234
    sample_rate_hz := none
    bitrate_kbps := none
    channels := none
    codec_name := none
    container_format := none
    duration_seconds := none
    cache_hit := false
    content_sha256 := some "abc"
    error_codes := [] }

/-- Fingerprint for the cache test vector. -/
def cacheSampleFingerprint : FileFingerprint :=
  { mtime_unix_secs := 1, file_size_bytes := 1, content_sha256 := "abc" }

/-- A one-entry cache holding the test vector. -/
def cacheSample : AnalysisCache :=
  { version := CACHE_VERSION
    entries := [("/tmp/a.flac", ⟨cacheSampleFingerprint, cacheSampleMetrics⟩)] }

/-- C2 witness: the concrete one-entry cache hits on its own fingerprint,
and the record from the `process_one_file` hit path has the cache-hit flag
set and zero processing duration. -/
theorem cache_lookup_spec_witness :
    ({ { cacheSampleMetrics with cache_hit := true } with
        processing_time_ms := 0 } : FileMetrics).cache_hit = true ∧
    ({ { cacheSampleMetrics with cache_hit := true } with
        processing_time_ms := 0 } : FileMetrics).processing_time_ms = 0 :=
  (cache_lookup_spec cacheSample "/tmp/a.flac" cacheSampleFingerprint).2 _ rfl

/-- Outcome of reading and parsing the cache file, as seen by
`AnalysisCache::load` (src/analyzer/cache.rs:43): the file may be missing,
unreadable, unparsable, or parsed into a cache document. -/
inductive CacheFileState where
  | missing
  | unreadable (msg : String)
  | unparsable (msg : String)
  | parsed (c : AnalysisCache)

/-- `AnalysisCache::load` (src/analyzer/cache.rs:43): missing file gives the
default cache; read/parse failures are errors; a parsed document with a
stale version is discarded wholesale in favour of the default cache. -/
def AnalysisCache.load : CacheFileState → Except String AnalysisCache
  | .missing => .ok AnalysisCache.default
  | .unreadable msg => .error msg
  | .unparsable msg => .error msg
  | .parsed c => if c.version ≠ CACHE_VERSION then .ok AnalysisCache.default else .ok c

/-- C6: a parsed cache document whose version differs from the current one
loads as the empty default cache (current version, zero entries), not as an
error and not as a partial/merged cache. -/
theorem cache_version_mismatch_resets (c : AnalysisCache)
    (h : c.version ≠ CACHE_VERSION) :
    AnalysisCache.load (.parsed c) = .ok AnalysisCache.default ∧
    AnalysisCache.default.version = CACHE_VERSION ∧
    AnalysisCache.default.entries = [] := by
  refine ⟨?_, rfl, rfl⟩
  show (if c.version ≠ CACHE_VERSION then Except.ok AnalysisCache.default
    else Except.ok c) = Except.ok AnalysisCache.default
  rw [if_pos h]

/-- A nonempty cache document stamped with a stale format version. -/
def staleCache : AnalysisCache :=
  { version := 2
    entries := [("/tmp/a.flac", ⟨cacheSampleFingerprint, cacheSampleMetrics⟩)] }

/-- C6 witness: loading the concrete stale-version document yields the
default empty cache. -/
theorem cache_version_mismatch_resets_witness :
    AnalysisCache.load (.parsed staleCache) = .ok AnalysisCache.default ∧
    AnalysisCache.default.version = CACHE_VERSION ∧
    AnalysisCache.default.entries = [] :=
  cache_version_mismatch_resets staleCache (by decide)

/-- `ProcessLimiter` capacity (src/analyzer/ffmpeg.rs:22): the configured
value, floored at 1 by `ProcessLimiter::new` (ffmpeg.rs:29). -/
structure ProcessLimiter where
  max_parallel : ℕ

/-- `ProcessLimiter::new` (src/analyzer/ffmpeg.rs:29): `max_parallel.max(1)`. -/
def ProcessLimiter.new (max_parallel : ℕ) : ProcessLimiter :=
  { max_parallel := max max_parallel 1 }

/-- One transition of the permit counter guarded by the limiter's mutex:
`acquire` (src/analyzer/ffmpeg.rs:36) increments only after the condition
variable establishes `running < max_parallel`; dropping a `ProcessPermit`
(ffmpeg.rs:56) decrements with `saturating_sub`. -/
inductive LimiterStep (L : ProcessLimiter) : ℕ → ℕ → Prop
  | acquire {n : ℕ} (h : n < L.max_parallel) : LimiterStep L n (n + 1)
  | release {n : ℕ} : LimiterStep L n (n - 1)

/-- Counter values reachable from an idle limiter (zero permits) by any
interleaving of acquires and releases. -/
def LimiterReachable (L : ProcessLimiter) (n : ℕ) : Prop :=
  Relation.ReflTransGen (LimiterStep L) 0 n

/-- C9: a limiter built with configured capacity `k` enforces capacity
`max k 1 ≥ 1`: in every state reachable by any interleaving of acquires and
releases, at most `max k 1` permits are outstanding, because `acquire`
blocks (cannot step) while the counter is at capacity and every permit
release decrements the counter. -/
theorem limiter_bounds_outstanding_permits (k n : ℕ)
    (h : LimiterReachable (ProcessLimiter.new k) n) :
    n ≤ (ProcessLimiter.new k).max_parallel ∧
    1 ≤ (ProcessLimiter.new k).max_parallel := by
  refine ⟨?_, le_max_right _ _⟩
  induction h with
  | refl => exact Nat.zero_le _
  | tail _ step ih =>
    cases step with
    | acquire hlt => omega
    | release => omega

/-- Concrete two-acquire trace against a capacity-2 limiter. -/
lemma limiter_two_acquires : LimiterReachable (ProcessLimiter.new 2) 2 := by
  have s1 : LimiterStep (ProcessLimiter.new 2) 0 1 :=
    LimiterStep.acquire (by norm_num [ProcessLimiter.new])
  have s2 : LimiterStep (ProcessLimiter.new 2) 1 2 :=
    LimiterStep.acquire (by norm_num [ProcessLimiter.new])
  exact Relation.ReflTransGen.tail (Relation.ReflTransGen.tail .refl s1) s2

/-- C9 witness: after two concurrent acquires on a capacity-2 limiter the
outstanding count 2 is within the bound. -/
theorem limiter_bounds_outstanding_permits_witness :
    2 ≤ (ProcessLimiter.new 2).max_parallel ∧
    1 ≤ (ProcessLimiter.new 2).max_parallel :=
  limiter_bounds_outstanding_permits 2 2 limiter_two_acquires

/-- A parsed numeric token (src/analyzer/ffmpeg.rs has these flow into
`Option<f64>` fields): either a finite value, or one of the two infinities
that `parse_float_token` admits. -/
inductive FloatVal where
  | finite (q : ℚ)
  | posInf
  | negInf
deriving DecidableEq

/-- The token normalisation performed by `parse_float_token`
(src/analyzer/ffmpeg.rs:241): `token.trim().to_ascii_lowercase()`. -/
def normToken (token : String) : String :=
  ⟨(trimChars token.data).map lowerAscii⟩

/-- `parse_float_token` (src/analyzer/ffmpeg.rs:240).  The final fallback
`text.parse::<f64>()` (Rust float parsing of the already-normalised text)
is abstracted as the `parseNum` argument. -/
def parse_float_token (parseNum : String → Option FloatVal) (token : String) :
    Option FloatVal :=
  let text := normToken token
  if text = "inf" ∨ text = "+inf" then some .posInf
  else if text = "-inf" then some .negInf
  else if text = "nan" then none
  else parseNum text

/-- C8: after trimming and ASCII lower-casing, the tokens `inf` and `+inf`
parse to positive infinity, `-inf` parses to negative infinity, and `nan`
maps to an absent value rather than an error — independently of the numeric
fallback parser. -/
theorem parse_float_token_special_tokens
    (parseNum : String → Option FloatVal) (token : String) :
    (normToken token = "inf" ∨ normToken token = "+inf" →
      parse_float_token parseNum token = some .posInf) ∧
    (normToken token = "-inf" →
      parse_float_token parseNum token = some .negInf) ∧
    (normToken token = "nan" →
      parse_float_token parseNum token = none) := by
  refine ⟨?_, ?_, ?_⟩
  · intro h
    unfold parse_float_token
    rw [if_pos h]
  · intro h
    unfold parse_float_token
    rw [if_neg, if_pos h]
    rw [h]
    rintro (hc | hc) <;> exact absurd hc (by decide)
  · intro h
    unfold parse_float_token
    rw [if_neg, if_neg, if_pos h]
    · rw [h]; decide
    · rw [h]
      rintro (hc | hc) <;> exact absurd hc (by decide)

/-- C8 witness: concrete mixed-case, whitespace-padded tokens take the
special-token paths regardless of the fallback parser. -/
theorem parse_float_token_special_tokens_witness :
    parse_float_token (fun _ => none) " INF " = some .posInf ∧
    parse_float_token (fun _ => none) "-Inf" = some .negInf ∧
    parse_float_token (fun _ => none) "NaN" = none := by
  refine ⟨?_, ?_, ?_⟩
  · exact (parse_float_token_special_tokens (fun _ => none) " INF ").1
      (Or.inl (by decide))
  · exact (parse_float_token_special_tokens (fun _ => none) "-Inf").2.1 (by decide)
  · exact (parse_float_token_special_tokens (fun _ => none) "NaN").2.2 (by decide)

/-- Parsed ebur128 measurements (src/analyzer/ffmpeg.rs:77). -/
structure Ebur128Stats where
  lra : Option ℚ
  integrated_loudness_lufs : Option ℚ
  true_peak_dbtp : Option ℚ

/-- Parsed overall peak/RMS statistics (src/analyzer/metrics.rs:19). -/
structure AudioStats where
  peak_db : Option ℚ
  rms_db : Option ℚ

/-- Metadata returned by the probe (src/analyzer/ffmpeg.rs:67). -/
structure ProbeData where
  sample_rate_hz : Option ℕ
  bitrate_kbps : Option ℕ
  channels : Option ℕ
  codec_name : Option String
  container_format : Option String
  duration_seconds : Option ℚ

/-- `ProbeData::default` (derived `Default`, src/analyzer/ffmpeg.rs:66):
every field absent. -/
def ProbeData.default : ProbeData :=
  { sample_rate_hz := none
    bitrate_kbps := none
    channels := none
    codec_name := none
    container_format := none
    duration_seconds := none }

/-- Byte-order comparison of characters lists (Rust `String` ordering is
lexicographic; the error codes compared are ASCII). -/
def charListLe : List Char → List Char → Bool
  | [], _ => true
  | _ :: _, [] => false
  | a :: as, b :: bs =>
    if a.toNat < b.toNat then true
    else if a.toNat = b.toNat then charListLe as bs
    else false

/-- Lexicographic order on strings, models `String: Ord`. -/
def strLe (a b : String) : Bool := charListLe a.data b.data

/-- Insert into a sorted list (helper of the stable ascending sort that
models `Vec::sort`, src/analyzer/ffmpeg.rs:473). -/
def insertStr (x : String) : List String → List String
  | [] => [x]
  | b :: bs => if strLe x b then x :: b :: bs else b :: insertStr x bs

/-- Stable ascending sort modelling `error_codes.sort()`
(src/analyzer/ffmpeg.rs:473). -/
def sortStrings : List String → List String
  | [] => []
  | a :: as => insertStr a (sortStrings as)

/-- `Vec::dedup` (src/analyzer/ffmpeg.rs:474): drop *consecutive*
duplicates. -/
def dedupAdjacent : List String → List String
  | [] => []
  | [a] => [a]
  | a :: b :: rest =>
    if a = b then dedupAdjacent (b :: rest) else a :: dedupAdjacent (b :: rest)

/-- Character class `[A-Z0-9_]` of the `ERROR_CODE_REGEX`
(src/analyzer/ffmpeg.rs:105). -/
def isCodeChar (c : Char) : Bool :=
  ('A' ≤ c && c ≤ 'Z') || ('0' ≤ c && c ≤ '9') || c = '_'

/-- Longest run of code characters at the head, with the remainder. -/
def takeCodeRun : List Char → List Char × List Char
  | [] => ([], [])
  | c :: rest =>
    if isCodeChar c then
      let p := takeCodeRun rest
      (c :: p.1, p.2)
    else ([], c :: rest)

/-- Match `\[(E_[A-Z0-9_]+)\]` at the current position: an opening bracket,
`E_`, at least one code character, then a closing bracket; returns the
capture group. -/
def matchCodeAt : List Char → Option String
  | '[' :: 'E' :: '_' :: rest =>
    match takeCodeRun rest with
    | ([], _) => none
    | (run, ']' :: _) => some ⟨'E' :: '_' :: run⟩
    | _ => none
  | _ => none

/-- Leftmost match of the error-code pattern in a character list
(`Regex::captures` takes the leftmost match; the code class excludes `]`,
so the greedy run is unambiguous). -/
def findCode : List Char → Option String
  | [] => none
  | c :: rest =>
    match matchCodeAt (c :: rest) with
    | some code => some code
    | none => findCode rest

/-- `extract_error_code` (src/analyzer/ffmpeg.rs:384): the bracketed
machine-readable code of the message when present, else the fallback. -/
def extract_error_code (msg fallback : String) : String :=
  (findCode msg.data).getD fallback

/-- The error codes pushed by the six per-operation `match` arms of
`process_file` (src/analyzer/ffmpeg.rs:421-471), in push order. -/
def collectErrorCodes (ebur_res : Except String Ebur128Stats)
    (stats_res : Except String AudioStats)
    (rms_16k_res rms_18k_res rms_20k_res : Except String ℚ)
    (probe_res : Except String ProbeData) : List String :=
  (match ebur_res with
    | .ok _ => []
    | .error e => [extract_error_code e "E_EBUR128"]) ++
  (match stats_res with
    | .ok _ => []
    | .error e => [extract_error_code e "E_STATS"]) ++
  (match rms_16k_res with
    | .ok _ => []
    | .error e => [extract_error_code e "E_RMS16K"]) ++
  (match rms_18k_res with
    | .ok _ => []
    | .error e => [extract_error_code e "E_RMS18K"]) ++
  (match rms_20k_res with
    | .ok _ => []
    | .error e => [extract_error_code e "E_RMS20K"]) ++
  (match probe_res with
    | .ok _ => []
    | .error e => [extract_error_code e "E_FFPROBE"])

/-- `process_file` (src/analyzer/ffmpeg.rs:392), as a function of the
outcomes of its six independent extraction operations (which in the source
run concurrently and are joined before any outcome is inspected): each
failed operation leaves its fields absent and contributes its error code;
the collected codes are sorted and consecutive duplicates dropped. -/
def process_file (path : String) (file_size_bytes processing_time_ms : ℕ)
    (ebur_res : Except String Ebur128Stats)
    (stats_res : Except String AudioStats)
    (rms_16k_res rms_18k_res rms_20k_res : Except String ℚ)
    (probe_res : Except String ProbeData) : FileMetrics :=
  let probe := match probe_res with
    | .ok p => p
    | .error _ => ProbeData.default
  { file_path := path
    file_size_bytes := file_size_bytes
    lra := match ebur_res with | .ok s => s.lra | .error _ => none
    peak_amplitude_db := match stats_res with | .ok s => s.peak_db | .error _ => none
    overall_rms_db := match stats_res with | .ok s => s.rms_db | .error _ => none
    rms_db_above_16k := match rms_16k_res with | .ok v => some v | .error _ => none
    rms_db_above_18k := match rms_18k_res with | .ok v => some v | .error _ => none
    rms_db_above_20k := match rms_20k_res with | .ok v => some v | .error _ => none
    integrated_loudness_lufs :=
      match ebur_res with | .ok s => s.integrated_loudness_lufs | .error _ => none
    true_peak_dbtp := match ebur_res with | .ok s => s.true_peak_dbtp | .error _ => none
    processing_time_ms := processing_time_ms
    sample_rate_hz := probe.sample_rate_hz
    bitrate_kbps := probe.bitrate_kbps
    channels := probe.channels
    codec_name := probe.codec_name
    container_format := probe.container_format
    duration_seconds := probe.duration_seconds
    cache_hit := false
    content_sha256 := none
    error_codes := dedupAdjacent (sortStrings (collectErrorCodes ebur_res stats_res
      rms_16k_res rms_18k_res rms_20k_res probe_res)) }

/-- `get_probe_data` (src/analyzer/ffmpeg.rs:294): with no ffprobe
executable configured the probe returns default (all-absent) metadata
without running anything; otherwise the outcome of running and parsing the
probe command (abstracted as `run`). -/
def get_probe_data (ffprobe_path : Option String)
    (run : Except String ProbeData) : Except String ProbeData :=
  match ffprobe_path with
  | none => .ok ProbeData.default
  | some _ => run

lemma mem_insertStr {x a : String} {l : List String} :
    a ∈ insertStr x l ↔ a = x ∨ a ∈ l := by
  induction l with
  | nil => simp [insertStr]
  | cons b bs ih =>
    unfold insertStr
    split_ifs with h
    · simp
    · simp [ih, List.mem_cons]
      tauto

lemma mem_sortStrings {a : String} {l : List String} :
    a ∈ sortStrings l ↔ a ∈ l := by
  induction l with
  | nil => simp [sortStrings]
  | cons b bs ih => simp [sortStrings, mem_insertStr, ih]

lemma mem_dedupAdjacent {a : String} {l : List String} :
    a ∈ dedupAdjacent l ↔ a ∈ l := by
  induction l using dedupAdjacent.induct with
  | case1 => simp [dedupAdjacent]
  | case2 x => simp [dedupAdjacent]
  | case3 y rest ih =>
    rw [dedupAdjacent, if_pos rfl]
    simp only [List.mem_cons] at ih ⊢
    tauto
  | case4 x y rest h ih =>
    rw [dedupAdjacent, if_neg h]
    simp only [List.mem_cons] at ih ⊢
    tauto

/-- C5: `process_file` always returns a metrics record, whatever subset of
the six extraction operations fails.  Each failed operation leaves its
metric fields absent and contributes its error code (bracketed code of the
message when present, else the operation-specific fallback) to the record;
each succeeded operation has its fields populated from its result; the
attached code list is the sorted, consecutively-deduplicated collection. -/
theorem process_file_failure_isolation (path : String) (fsz pt : ℕ)
    (ebur_res : Except String Ebur128Stats)
    (stats_res : Except String AudioStats)
    (rms_16k_res rms_18k_res rms_20k_res : Except String ℚ)
    (probe_res : Except String ProbeData) :
    ∀ m, m = process_file path fsz pt ebur_res stats_res rms_16k_res rms_18k_res
        rms_20k_res probe_res →
      (∀ e, ebur_res = .error e → m.lra = none ∧ m.integrated_loudness_lufs = none ∧
        m.true_peak_dbtp = none ∧ extract_error_code e "E_EBUR128" ∈ m.error_codes) ∧
      (∀ s, ebur_res = .ok s → m.lra = s.lra ∧
        m.integrated_loudness_lufs = s.integrated_loudness_lufs ∧
        m.true_peak_dbtp = s.true_peak_dbtp) ∧
      (∀ e, stats_res = .error e → m.peak_amplitude_db = none ∧
        m.overall_rms_db = none ∧ extract_error_code e "E_STATS" ∈ m.error_codes) ∧
      (∀ s, stats_res = .ok s → m.peak_amplitude_db = s.peak_db ∧
        m.overall_rms_db = s.rms_db) ∧
      (∀ e, rms_16k_res = .error e → m.rms_db_above_16k = none ∧
        extract_error_code e "E_RMS16K" ∈ m.error_codes) ∧
      (∀ v, rms_16k_res = .ok v → m.rms_db_above_16k = some v) ∧
      (∀ e, rms_18k_res = .error e → m.rms_db_above_18k = none ∧
        extract_error_code e "E_RMS18K" ∈ m.error_codes) ∧
      (∀ v, rms_18k_res = .ok v → m.rms_db_above_18k = some v) ∧
      (∀ e, rms_20k_res = .error e → m.rms_db_above_20k = none ∧
        extract_error_code e "E_RMS20K" ∈ m.error_codes) ∧
      (∀ v, rms_20k_res = .ok v → m.rms_db_above_20k = some v) ∧
      (∀ e, probe_res = .error e → m.sample_rate_hz = none ∧ m.bitrate_kbps = none ∧
        m.channels = none ∧ m.codec_name = none ∧ m.container_format = none ∧
        m.duration_seconds = none ∧ extract_error_code e "E_FFPROBE" ∈ m.error_codes) ∧
      (∀ d, probe_res = .ok d → m.sample_rate_hz = d.sample_rate_hz ∧
        m.bitrate_kbps = d.bitrate_kbps ∧ m.channels = d.channels ∧
        m.codec_name = d.codec_name ∧ m.container_format = d.container_format ∧
        m.duration_seconds = d.duration_seconds) ∧
      m.error_codes = dedupAdjacent (sortStrings (collectErrorCodes ebur_res stats_res
        rms_16k_res rms_18k_res rms_20k_res probe_res)) := by
  intro m hm
  subst hm
  refine ⟨?_, ?_, ?_, ?_, ?_, ?_, ?_, ?_, ?_, ?_, ?_, ?_, rfl⟩
  · rintro e rfl
    refine ⟨rfl, rfl, rfl, ?_⟩
    simp [process_file, collectErrorCodes, mem_dedupAdjacent, mem_sortStrings,
      List.mem_append]
  · rintro s rfl
    exact ⟨rfl, rfl, rfl⟩
  · rintro e rfl
    refine ⟨rfl, rfl, ?_⟩
    simp [process_file, collectErrorCodes, mem_dedupAdjacent, mem_sortStrings,
      List.mem_append]
  · rintro s rfl
    exact ⟨rfl, rfl⟩
  · rintro e rfl
    refine ⟨rfl, ?_⟩
    simp [process_file, collectErrorCodes, mem_dedupAdjacent, mem_sortStrings,
      List.mem_append]
  · rintro v rfl
    rfl
  · rintro e rfl
    refine ⟨rfl, ?_⟩
    simp [process_file, collectErrorCodes, mem_dedupAdjacent, mem_sortStrings,
      List.mem_append]
  · rintro v rfl
    rfl
  · rintro e rfl
    refine ⟨rfl, ?_⟩
    simp [process_file, collectErrorCodes, mem_dedupAdjacent, mem_sortStrings,
      List.mem_append]
  · rintro v rfl
    rfl
  · rintro e rfl
    refine ⟨rfl, rfl, rfl, rfl, rfl, rfl, ?_⟩
    simp [process_file, collectErrorCodes, mem_dedupAdjacent, mem_sortStrings,
      List.mem_append]
  · rintro d rfl
    exact ⟨rfl, rfl, rfl, rfl, rfl, rfl⟩

/-- Successful ebur128 result for the failure-isolation test vector. -/
def eburSample : Ebur128Stats :=
  { lra := some 8, integrated_loudness_lufs := some (-9), true_peak_dbtp := some (-1) }

/-- Successful peak/RMS result for the failure-isolation test vector. -/
def statsSample : AudioStats := { peak_db := some (-1), rms_db := some (-18) }

/-- Successful probe result for the failure-isolation test vector. -/
def probeSample : ProbeData :=
  { sample_rate_hz := some 44100
    bitrate_kbps := some 900
    channels := some 2
    codec_name := some "flac"
    container_format := some "flac"
    duration_seconds := some 60 }

/-- The metrics record produced when exactly the 20 kHz band extraction
fails (with a message carrying no bracketed code) and the other five
operations succeed. -/
def isolationSample : FileMetrics :=
  process_file "song.flac" 1000 50 (.ok eburSample) (.ok statsSample)
    (.ok (-60)) (.ok (-75)) (.error "ffmpeg crashed") (.ok probeSample)

/-- C5 witness: with exactly the 20 kHz band failing, that one field is
absent, its fallback code is attached, and the five other operations'
fields are populated; a bracketed message would instead contribute its
embedded code. -/
theorem process_file_failure_isolation_witness :
    isolationSample.rms_db_above_20k = none ∧
    "E_RMS20K" ∈ isolationSample.error_codes ∧
    isolationSample.lra = some 8 ∧
    isolationSample.peak_amplitude_db = some (-1) ∧
    isolationSample.rms_db_above_16k = some (-60) ∧
    isolationSample.rms_db_above_18k = some (-75) ∧
    isolationSample.sample_rate_hz = some 44100 ∧
    extract_error_code "boom [E_TIMEOUT] exceeded" "E_RMS20K" = "E_TIMEOUT" := by
  have H := process_file_failure_isolation "song.flac" 1000 50 (.ok eburSample)
    (.ok statsSample) (.ok (-60)) (.ok (-75)) (.error "ffmpeg crashed")
    (.ok probeSample) isolationSample rfl
  have hcode : extract_error_code "ffmpeg crashed" "E_RMS20K" = "E_RMS20K" := by decide
  obtain ⟨h20, hmem⟩ := H.2.2.2.2.2.2.2.2.1 "ffmpeg crashed" rfl
  refine ⟨h20, ?_, (H.2.1 eburSample rfl).1, (H.2.2.2.1 statsSample rfl).1,
    H.2.2.2.2.2.1 (-60) rfl, H.2.2.2.2.2.2.2.1 (-75) rfl,
    (H.2.2.2.2.2.2.2.2.2.2.2.1 probeSample rfl).1, by decide⟩
  rw [hcode] at hmem
  exact hmem

/-- C10: with no ffprobe executable configured, the probe operation
succeeds with the default all-absent metadata: the file's metrics record
gets `none` for all six probe fields, and — the probe arm contributing no
code — a file whose other five operations succeed carries no error codes
at all. -/
theorem probe_absent_yields_empty_metadata (run : Except String ProbeData)
    (path : String) (fsz pt : ℕ) (ebur_res : Except String Ebur128Stats)
    (stats_res : Except String AudioStats)
    (rms_16k_res rms_18k_res rms_20k_res : Except String ℚ) :
    get_probe_data none run = .ok ProbeData.default ∧
    ProbeData.default.sample_rate_hz = none ∧
    ProbeData.default.bitrate_kbps = none ∧
    ProbeData.default.channels = none ∧
    ProbeData.default.codec_name = none ∧
    ProbeData.default.container_format = none ∧
    ProbeData.default.duration_seconds = none ∧
    (process_file path fsz pt ebur_res stats_res rms_16k_res rms_18k_res rms_20k_res
      (.ok ProbeData.default)).sample_rate_hz = none ∧
    (process_file path fsz pt ebur_res stats_res rms_16k_res rms_18k_res rms_20k_res
      (.ok ProbeData.default)).bitrate_kbps = none ∧
    (process_file path fsz pt ebur_res stats_res rms_16k_res rms_18k_res rms_20k_res
      (.ok ProbeData.default)).channels = none ∧
    (process_file path fsz pt ebur_res stats_res rms_16k_res rms_18k_res rms_20k_res
      (.ok ProbeData.default)).codec_name = none ∧
    (process_file path fsz pt ebur_res stats_res rms_16k_res rms_18k_res rms_20k_res
      (.ok ProbeData.default)).container_format = none ∧
    (process_file path fsz pt ebur_res stats_res rms_16k_res rms_18k_res rms_20k_res
      (.ok ProbeData.default)).duration_seconds = none ∧
    (∀ es ss v16 v18 v20, (process_file path fsz pt (.ok es) (.ok ss) (.ok v16)
      (.ok v18) (.ok v20) (.ok ProbeData.default)).error_codes = []) :=
  ⟨rfl, rfl, rfl, rfl, rfl, rfl, rfl, rfl, rfl, rfl, rfl, rfl, rfl,
    fun _ _ _ _ _ => rfl⟩
